import Mathlib

/-!
Verification development for the etcd-v3 backed vulcand engine
(`engine/etcdv3ng/etcd.go`).

The Go file is shallowly embedded here.  Keys of the etcd store are plain
strings; stored payloads are abstracted by the inductive `Val`: the byte-level
wire format of each entity is an external collaborator, so a payload is
modelled by what it deserializes to — constructor `garbage` stands for any
byte string that fails every deserializer, and each entity constructor stands
for a well-formed payload of that entity kind.  Fallible Go functions
returning `(T, error)` become `Except Err T`; functions mutating etcd state
return the new store explicitly.
-/

set_option autoImplicit false

deriving instance DecidableEq for Except

namespace VulcandEtcd

/-- Abstract stored payload (the value bytes of one etcd key).  `garbage`
stands for bytes that fail every deserializer; each other constructor stands
for a well-formed serialization of that entity kind, carrying exactly the
fields the verified properties depend on. -/
inductive Val where
  | frontendV (backendId : String)
  | backendV
  | serverV
  | middlewareV
  | listenerV
  | hostV (sealedKeyPair : Bool)
  | garbage
deriving DecidableEq

/-- Error values produced by the engine (`engine.InvalidFormatError`,
`engine.NotFoundError`, deserialization errors, the `fmt.Errorf` of
`DeleteBackend`, the secret-box configuration error, and transport errors of
the etcd client). -/
inductive Err where
  | invalidFormat (msg : String)
  | notFound (msg : String)
  | decode
  | inUse (backendId : String)
  | needBox
  | transport
deriving DecidableEq

structure Frontend where
  id : String
  backendId : String
deriving DecidableEq

structure Backend where
  id : String
deriving DecidableEq

structure Server where
  id : String
deriving DecidableEq

structure Middleware where
  id : String
deriving DecidableEq

structure Listener where
  id : String
deriving DecidableEq

structure Host where
  name : String
deriving DecidableEq

structure FrontendSpec where
  frontend : Frontend
  middlewares : List Middleware
deriving DecidableEq

structure BackendSpec where
  backend : Backend
  servers : List Server
deriving DecidableEq

/-- `engine.Snapshot` (the read revision is irrelevant to the verified
properties and is omitted). -/
structure Snapshot where
  frontendSpecs : List FrontendSpec
  backendSpecs : List BackendSpec
  hosts : List Host
  listeners : List Listener
deriving DecidableEq

/-- `engine.FrontendFromJSON`: succeeds exactly on a well-formed frontend
payload; the id comes from the caller (the key), not the payload. -/
def FrontendFromJSON (v : Val) (id : String) : Except Err Frontend :=
  match v with
  | .frontendV b => .ok ⟨id, b⟩
  | _ => .error .decode

/-- `engine.BackendFromJSON`. -/
def BackendFromJSON (v : Val) (id : String) : Except Err Backend :=
  match v with
  | .backendV => .ok ⟨id⟩
  | _ => .error .decode

/-- `engine.ServerFromJSON`. -/
def ServerFromJSON (v : Val) (id : String) : Except Err Server :=
  match v with
  | .serverV => .ok ⟨id⟩
  | _ => .error .decode

/-- `engine.MiddlewareFromJSON`. -/
def MiddlewareFromJSON (v : Val) (id : String) : Except Err Middleware :=
  match v with
  | .middlewareV => .ok ⟨id⟩
  | _ => .error .decode

/-- `engine.ListenerFromJSON`. -/
def ListenerFromJSON (v : Val) (id : String) : Except Err Listener :=
  match v with
  | .listenerV => .ok ⟨id⟩
  | _ => .error .decode

/-- `json.Unmarshal` into the private `host` struct: succeeds exactly on a
well-formed host payload, yielding whether a sealed key pair is present. -/
def hostUnmarshal (v : Val) : Except Err Bool :=
  match v with
  | .hostV kp => .ok kp
  | _ => .error .decode

/-! ### Key-path model (`suffix`, `prefix`, `path`, `filterBySuffix`) -/

/-- Index of the last occurrence of `c` (Go `strings.LastIndex` on a
one-character separator), `none` when absent. -/
def lastIndexOf? (c : Char) : List Char → Option Nat
  | [] => none
  | x :: xs =>
    match lastIndexOf? c xs with
    | some i => some (i + 1)
    | none => if x = c then some 0 else none

/-- Go `suffix`: the part after the last `/`, or the whole key when no `/`
occurs. -/
def suffix (key : String) : String :=
  match lastIndexOf? '/' key.data with
  | none => key
  | some i => ⟨key.data.drop (i + 1)⟩

/-- The Go helper named `prefix` in the source (that name is reserved in
Lean): the part before the last `/`, or the whole key when no `/` occurs. -/
def parentPath (key : String) : String :=
  match lastIndexOf? '/' key.data with
  | none => key
  | some i => ⟨key.data.take i⟩

/-- Go `strings.Join` with the given separator. -/
def goJoin (sep : String) : List String → String
  | [] => ""
  | [x] => x
  | x :: y :: rest => x ++ sep ++ goJoin sep (y :: rest)

/-- The engine value (`ng`): the configured root key and whether a secret box
capability is configured (`options.Box`). -/
structure Ng where
  etcdKey : String
  hasBox : Bool
deriving DecidableEq

/-- Go `(n ng) path(keys ...string)`. -/
def Ng.path (n : Ng) (keys : List String) : String :=
  goJoin "/" (n.etcdKey :: keys)

/-- `strings.Index(key, p) == 0`: `key` starts with `p`. -/
def strStartsWith (p key : String) : Bool :=
  p.data.isPrefixOf key.data

/-- One key-value record of a listing (`mvccpb.KeyValue`). -/
abbrev KV := String × Val

/-- Go `filterBySuffix` (despite the name it keeps the records whose key
starts with the given string). -/
def filterBySuffix (kvs : List KV) (p : String) : List KV :=
  kvs.filter (fun kv => strStartsWith p kv.1)

/-! ### Snapshot assembler (`parseFrontends`, `parseBackends`, `parseHosts`,
`parseListeners`, `GetSnapshot`) -/

/-- Inner loop of `parseFrontends` collecting middleware records: a record is
a middleware when the segment before its last is `middlewares`; a
deserialization failure aborts with that error. -/
def parseMids : List KV → Except Err (List Middleware)
  | [] => .ok []
  | kv :: rest =>
    if suffix (parentPath kv.1) = "middlewares" then
      match MiddlewareFromJSON kv.2 (suffix kv.1) with
      | .error e => .error e
      | .ok m =>
        match parseMids rest with
        | .error e => .error e
        | .ok ms => .ok (m :: ms)
    else parseMids rest

/-- Inner loop of `parseBackends` collecting server records (segment before
last equal to `servers`). -/
def parseSrvs : List KV → Except Err (List Server)
  | [] => .ok []
  | kv :: rest =>
    if suffix (parentPath kv.1) = "servers" then
      match ServerFromJSON kv.2 (suffix kv.1) with
      | .error e => .error e
      | .ok s =>
        match parseSrvs rest with
        | .error e => .error e
        | .ok ss => .ok (s :: ss)
    else parseSrvs rest

/-- Loop of Go `parseFrontends`: `all` is the full list the function was
called with (used for the `filterBySuffix` sub-selection), the third argument
is the part of the loop still to run.  A record is treated as a frontend
container when `suffix(prefix(key)) == "frontend"`, and its id is
`suffix(key)`, exactly as in the source.  With `skip` set, the Go loop
`break`s right after deserializing the first container, before appending it,
so the specs accumulated up to that point — none — are returned. -/
def parseFrontendsFrom (all : List KV) (skip : Bool) : List KV → Except Err (List FrontendSpec)
  | [] => .ok []
  | kv :: rest =>
    if suffix (parentPath kv.1) = "frontend" then
      match FrontendFromJSON kv.2 (suffix kv.1) with
      | .error e => .error e
      | .ok f =>
        if skip then .ok []
        else
          match parseMids (filterBySuffix all kv.1) with
          | .error e => .error e
          | .ok ms =>
            match parseFrontendsFrom all skip rest with
            | .error e => .error e
            | .ok specs => .ok (⟨f, ms⟩ :: specs)
    else parseFrontendsFrom all skip rest

/-- Go `parseFrontends` (the variadic `skipMiddlewares` becomes a `Bool`). -/
def parseFrontends (kvs : List KV) (skip : Bool) : Except Err (List FrontendSpec) :=
  parseFrontendsFrom kvs skip kvs

/-- Loop of Go `parseBackends`, mirror image of `parseFrontendsFrom`. -/
def parseBackendsFrom (all : List KV) (skip : Bool) : List KV → Except Err (List BackendSpec)
  | [] => .ok []
  | kv :: rest =>
    if suffix (parentPath kv.1) = "backend" then
      match BackendFromJSON kv.2 (suffix kv.1) with
      | .error e => .error e
      | .ok b =>
        if skip then .ok []
        else
          match parseSrvs (filterBySuffix all kv.1) with
          | .error e => .error e
          | .ok ss =>
            match parseBackendsFrom all skip rest with
            | .error e => .error e
            | .ok specs => .ok (⟨b, ss⟩ :: specs)
    else parseBackendsFrom all skip rest

/-- Go `parseBackends`. -/
def parseBackends (kvs : List KV) (skip : Bool) : Except Err (List BackendSpec) :=
  parseBackendsFrom kvs skip kvs

/-- Go `parseHosts`: a record is a host container when
`suffix(prefix(key)) == "host"`; a sealed key pair with no configured box is
an error (`openSealedJSONVal`), and `engine.NewHost` rejects an empty name. -/
def parseHosts (box : Bool) : List KV → Except Err (List Host)
  | [] => .ok []
  | kv :: rest =>
    if suffix (parentPath kv.1) = "host" then
      match hostUnmarshal kv.2 with
      | .error e => .error e
      | .ok sealed =>
        if sealed ∧ ¬box then .error .needBox
        else if suffix kv.1 = "" then .error (.invalidFormat "hostname can not be empty")
        else
          match parseHosts box rest with
          | .error e => .error e
          | .ok hs => .ok (⟨suffix kv.1⟩ :: hs)
    else parseHosts box rest

/-- Go `parseListeners` (`suffix(prefix(key)) == "listeners"`). -/
def parseListeners : List KV → Except Err (List Listener)
  | [] => .ok []
  | kv :: rest =>
    if suffix (parentPath kv.1) = "listeners" then
      match ListenerFromJSON kv.2 (suffix kv.1) with
      | .error e => .error e
      | .ok l =>
        match parseListeners rest with
        | .error e => .error e
        | .ok ls => .ok (l :: ls)
    else parseListeners rest

/-- Outer loop of `GetSnapshot`: for every record of the listing, switch on
the last segment of its key and (re)assign the corresponding collection from
the records whose key starts with that key; any parse error is returned as
the result of `GetSnapshot`. -/
def getSnapshotLoop (box : Bool) (all : List KV) : List KV → Snapshot → Except Err Snapshot
  | [], s => .ok s
  | kv :: rest, s =>
    if suffix kv.1 = "frontends" then
      match parseFrontends (filterBySuffix all kv.1) false with
      | .error e => .error e
      | .ok fs => getSnapshotLoop box all rest { s with frontendSpecs := fs }
    else if suffix kv.1 = "backends" then
      match parseBackends (filterBySuffix all kv.1) false with
      | .error e => .error e
      | .ok bs => getSnapshotLoop box all rest { s with backendSpecs := bs }
    else if suffix kv.1 = "hosts" then
      match parseHosts box (filterBySuffix all kv.1) with
      | .error e => .error e
      | .ok hs => getSnapshotLoop box all rest { s with hosts := hs }
    else if suffix kv.1 = "listeners" then
      match parseListeners (filterBySuffix all kv.1) with
      | .error e => .error e
      | .ok ls => getSnapshotLoop box all rest { s with listeners := ls }
    else getSnapshotLoop box all rest s

/-- Go `GetSnapshot`, taking the sorted listing returned by the bulk prefix
read (its transport errors are external to this function). -/
def getSnapshot (n : Ng) (kvs : List KV) : Except Err Snapshot :=
  getSnapshotLoop n.hasBox kvs kvs ⟨[], [], [], []⟩

/-! ### The etcd store and the point/bulk read and write operations -/

/-- Abstraction of the etcd cluster as seen through `n.client`: the committed
key-value pairs (unique keys) plus a transport flag — with `failing` set every
client call returns a transport error, modelling an unreachable store. -/
structure Store where
  kvs : List KV
  failing : Bool
deriving DecidableEq

/-- Exact-key read (`client.Get` without options returns at most the one
record at that key). -/
def Store.lookup (st : Store) (key : String) : Option Val :=
  (st.kvs.find? (fun kv => kv.1 == key)).map (·.2)

/-- Prefix read (`client.Get` with `WithPrefix`): the records whose key
starts with the argument. -/
def Store.kvsUnder (st : Store) (p : String) : List KV :=
  st.kvs.filter (fun kv => strStartsWith p kv.1)

/-- `client.Put`: replace or add the record at `key`. -/
def Store.put (st : Store) (key : String) (v : Val) : Store :=
  ⟨st.kvs.filter (fun kv => ¬(kv.1 == key)) ++ [(key, v)], st.failing⟩

/-- `client.Delete` with `WithPrefix`: drop every record whose key starts
with the argument (this is how every delete in the source is issued). -/
def Store.delUnder (st : Store) (p : String) : Store :=
  ⟨st.kvs.filter (fun kv => ¬strStartsWith p kv.1), st.failing⟩

/-- Go `getVal`: exact read; a missing key is
`engine.NotFoundError{"Key not found"}`. -/
def getVal (st : Store) (key : String) : Except Err Val :=
  if st.failing then .error .transport
  else
    match st.lookup key with
    | some v => .ok v
    | none => .error (.notFound "Key not found")

/-- Go `getVals`: prefix read over the `/`-joined key segments, returning the
raw records. -/
def getVals (st : Store) (keys : List String) : Except Err (List KV) :=
  if st.failing then .error .transport
  else .ok (st.kvsUnder (goJoin "/" keys))

/-- Go `getKeysByImmediatePrefix`: keys under the joined target whose parent
path is exactly the target (immediate children only). -/
def getKeysUnderParent (st : Store) (keys : List String) : Except Err (List String) :=
  if st.failing then .error .transport
  else
    let target := goJoin "/" keys
    .ok ((st.kvsUnder target).filterMap
      (fun kv => if parentPath kv.1 = target then some kv.1 else none))

/-- Go `setVal`/`setJSONVal` (the lease grant is a client call, so a failing
transport errors before the write). -/
def setVal (st : Store) (key : String) (v : Val) : Except Err Unit × Store :=
  if st.failing then (.error .transport, st) else (.ok (), st.put key v)

/-- Go `deleteKey` (always a prefix delete). -/
def deleteKey (st : Store) (key : String) : Except Err Unit × Store :=
  if st.failing then (.error .transport, st) else (.ok (), st.delUnder key)

/-- Go `GetBackend`: point read of `<root>/backends/<id>/backend` then
deserialize. -/
def getBackend (n : Ng) (st : Store) (id : String) : Except Err Backend :=
  match getVal st (n.path ["backends", id, "backend"]) with
  | .error e => .error e
  | .ok v => BackendFromJSON v id

/-- Go `GetServer`. -/
def getServer (n : Ng) (st : Store) (bId sId : String) : Except Err Server :=
  match getVal st (n.path ["backends", bId, "servers", sId]) with
  | .error e => .error e
  | .ok v => ServerFromJSON v sId

/-- Go `GetFrontend`. -/
def getFrontend (n : Ng) (st : Store) (id : String) : Except Err Frontend :=
  match getVal st (n.path ["frontends", id, "frontend"]) with
  | .error e => .error e
  | .ok v => FrontendFromJSON v id

/-- Go `GetMiddleware`. -/
def getMiddleware (n : Ng) (st : Store) (fId mId : String) : Except Err Middleware :=
  match getVal st (n.path ["frontends", fId, "middlewares", mId]) with
  | .error e => .error e
  | .ok v => MiddlewareFromJSON v mId

/-- Go `GetListener`. -/
def getListener (n : Ng) (st : Store) (id : String) : Except Err Listener :=
  match getVal st (n.path ["listeners", id]) with
  | .error e => .error e
  | .ok v => ListenerFromJSON v id

/-- Go `GetHost`: point read, unmarshal, open the sealed key pair when
present (configuration error without a box), and `engine.NewHost`. -/
def getHost (n : Ng) (st : Store) (name : String) : Except Err Host :=
  match getVal st (n.path ["hosts", name, "host"]) with
  | .error e => .error e
  | .ok v =>
    match hostUnmarshal v with
    | .error e => .error e
    | .ok sealed =>
      if sealed ∧ ¬n.hasBox then .error .needBox
      else if name = "" then .error (.invalidFormat "hostname can not be empty")
      else .ok ⟨name⟩

/-- Go `GetFrontends`: prefix read of `<root>/frontends`, then
`parseFrontends(kvs, true)`, then project the frontends. -/
def getFrontends (n : Ng) (st : Store) : Except Err (List Frontend) :=
  if st.failing then .error .transport
  else
    match parseFrontends (st.kvsUnder (n.etcdKey ++ "/frontends")) true with
    | .error e => .error e
    | .ok specs => .ok (specs.map (·.frontend))

/-- Go `backendUsedBy`: the frontends whose `BackendId` equals the given
backend id. -/
def backendUsedBy (n : Ng) (st : Store) (bId : String) : Except Err (List Frontend) :=
  match getFrontends n st with
  | .error e => .error e
  | .ok fs => .ok (fs.filter (fun f => f.backendId == bId))

/-- The shared loop shape of the bulk getters `GetHosts`, `GetListeners`,
`GetMiddlewares`, `GetServers`: run `f` on each element, skip (warn and
continue) the failures, append the successes. -/
def collectLoop {α β : Type} (f : α → Except Err β) : List α → List β → List β
  | [], acc => acc
  | x :: rest, acc =>
    match f x with
    | .error _ => collectLoop f rest acc
    | .ok b => collectLoop f rest (acc ++ [b])

/-- Go `GetHosts`: immediate children of `<root>/hosts`, each resolved via
`GetHost` on its last segment, per-entry failures skipped. -/
def getHosts (n : Ng) (st : Store) : Except Err (List Host) :=
  match getKeysUnderParent st [n.etcdKey, "hosts"] with
  | .error e => .error e
  | .ok keys => .ok (collectLoop (fun k => getHost n st (suffix k)) keys [])

/-- Go `GetListeners`. -/
def getListeners (n : Ng) (st : Store) : Except Err (List Listener) :=
  match getVals st [n.etcdKey, "listeners"] with
  | .error e => .error e
  | .ok prs => .ok (collectLoop (fun p => getListener n st (suffix p.1)) prs [])

/-- Go `GetMiddlewares`. -/
def getMiddlewares (n : Ng) (st : Store) (fId : String) : Except Err (List Middleware) :=
  match getVals st [n.etcdKey, "frontends", fId, "middlewares"] with
  | .error e => .error e
  | .ok prs => .ok (collectLoop (fun p => getMiddleware n st fId (suffix p.1)) prs [])

/-- Go `GetServers`. -/
def getServers (n : Ng) (st : Store) (bId : String) : Except Err (List Server) :=
  match getVals st [n.etcdKey, "backends", bId, "servers"] with
  | .error e => .error e
  | .ok prs => .ok (collectLoop (fun p => getServer n st bId (suffix p.1)) prs [])

/-! ### Write operations -/

/-- Go `UpsertHost` (`h.Settings.KeyPair != nil` requires a box to seal). -/
def upsertHost (n : Ng) (st : Store) (name : String) (hasKeyPair : Bool) :
    Except Err Unit × Store :=
  if name = "" then (.error (.invalidFormat "hostname can not be empty"), st)
  else if hasKeyPair ∧ ¬n.hasBox then (.error .needBox, st)
  else setVal st (n.path ["hosts", name, "host"]) (.hostV hasKeyPair)

/-- Go `DeleteHost`. -/
def deleteHost (n : Ng) (st : Store) (name : String) : Except Err Unit × Store :=
  if name = "" then (.error (.invalidFormat "hostname can not be empty"), st)
  else deleteKey st (n.path ["hosts", name])

/-- Go `UpsertListener`. -/
def upsertListener (n : Ng) (st : Store) (id : String) : Except Err Unit × Store :=
  if id = "" then (.error (.invalidFormat "listener id can not be empty"), st)
  else setVal st (n.path ["listeners", id]) .listenerV

/-- Go `DeleteListener`. -/
def deleteListener (n : Ng) (st : Store) (id : String) : Except Err Unit × Store :=
  if id = "" then (.error (.invalidFormat "listener id can not be empty"), st)
  else deleteKey st (n.path ["listeners", id])

/-- Go `UpsertFrontend`: empty-id guard, then the `GetBackend` existence
check, then the write; with a nonzero ttl an extra lease-carrying marker
record is put at `<root>/frontends/<id>` (its empty value deserializes as
nothing, hence `garbage`). -/
def upsertFrontend (n : Ng) (st : Store) (f : Frontend) (ttl : Nat) :
    Except Err Unit × Store :=
  if f.id = "" then (.error (.invalidFormat "frontend id can not be empty"), st)
  else
    match getBackend n st f.backendId with
    | .error e => (.error e, st)
    | .ok _ =>
      match setVal st (n.path ["frontends", f.id, "frontend"]) (.frontendV f.backendId) with
      | (.error e, st') => (.error e, st')
      | (.ok _, st') =>
        if ttl = 0 then (.ok (), st')
        else if st'.failing then (.error .transport, st')
        else (.ok (), st'.put (n.path ["frontends", f.id]) .garbage)

/-- Go `DeleteFrontend`. -/
def deleteFrontend (n : Ng) (st : Store) (id : String) : Except Err Unit × Store :=
  if id = "" then (.error (.invalidFormat "frontend id can not be empty"), st)
  else deleteKey st (n.path ["frontends", id])

/-- Go `UpsertBackend`. -/
def upsertBackend (n : Ng) (st : Store) (id : String) : Except Err Unit × Store :=
  if id = "" then (.error (.invalidFormat "backend id can not be empty"), st)
  else setVal st (n.path ["backends", id, "backend"]) .backendV

/-- Go `DeleteBackend`: empty-id guard, `backendUsedBy` check, then a prefix
delete of `<root>/backends/<id>`. -/
def deleteBackend (n : Ng) (st : Store) (bId : String) : Except Err Unit × Store :=
  if bId = "" then (.error (.invalidFormat "backend id can not be empty"), st)
  else
    match backendUsedBy n st bId with
    | .error e => (.error e, st)
    | .ok fs =>
      if fs ≠ [] then (.error (.inUse bId), st)
      else deleteKey st (n.path ["backends", bId])

/-- Go `UpsertMiddleware`: both-id guard, `GetFrontend` existence check,
write. -/
def upsertMiddleware (n : Ng) (st : Store) (fId mId : String) :
    Except Err Unit × Store :=
  if fId = "" ∨ mId = "" then
    (.error (.invalidFormat "frontend id and middleware id can not be empty"), st)
  else
    match getFrontend n st fId with
    | .error e => (.error e, st)
    | .ok _ => setVal st (n.path ["frontends", fId, "middlewares", mId]) .middlewareV

/-- Go `DeleteMiddleware`. -/
def deleteMiddleware (n : Ng) (st : Store) (fId mId : String) :
    Except Err Unit × Store :=
  if fId = "" ∨ mId = "" then
    (.error (.invalidFormat "frontend id and middleware id can not be empty"), st)
  else deleteKey st (n.path ["frontends", fId, "middlewares", mId])

/-- Go `UpsertServer`: both-id guard, `GetBackend` existence check, write. -/
def upsertServer (n : Ng) (st : Store) (bId sId : String) :
    Except Err Unit × Store :=
  if sId = "" ∨ bId = "" then
    (.error (.invalidFormat "backend id and server id can not be empty"), st)
  else
    match getBackend n st bId with
    | .error e => (.error e, st)
    | .ok _ => setVal st (n.path ["backends", bId, "servers", sId]) .serverV

/-- Go `DeleteServer`. -/
def deleteServer (n : Ng) (st : Store) (bId sId : String) :
    Except Err Unit × Store :=
  if sId = "" ∨ bId = "" then
    (.error (.invalidFormat "backend id and server id can not be empty"), st)
  else deleteKey st (n.path ["backends", bId, "servers", sId])

/-! ### Change classifier (`parseChange` and the six matchers)

Each Go matcher applies an RE2 pattern to the mutated key.  All six patterns
only inspect the `/`-separated segment structure of the key, so they are
embedded as functions on the segment decomposition: a pattern anchored with
`$` constrains the final segments, and the one unanchored pattern
(`/listeners/([^/]+)`) is a leftmost scan.  `[^/]+` requires a nonempty
segment, and the leading `/` of each pattern requires the matched literal
segment not to be the first segment of the key. -/

/-- Split a character list at `/` (the segment decomposition of a key). -/
def segsAux : List Char → List (List Char)
  | [] => [[]]
  | c :: cs =>
    if c = '/' then [] :: segsAux cs
    else
      match segsAux cs with
      | [] => [[c]]
      | s :: rest => (c :: s) :: rest

/-- The `/`-separated segments of a key. -/
def segs (key : String) : List String :=
  (segsAux key.data).map (fun l => ⟨l⟩)

/-- `/backends/([^/]+)/servers/([^/]+)$` — captures (backendId, serverId). -/
def serverKeyMatch (key : String) : Option (String × String) :=
  match (segs key).reverse with
  | s :: "servers" :: b :: "backends" :: _ :: _ =>
    if s = "" ∨ b = "" then none else some (b, s)
  | _ => none

/-- `/backends/([^/]+)(?:/backend)?$` — captures the backend id. -/
def backendKeyMatch (key : String) : Option String :=
  match (segs key).reverse with
  | "backend" :: b :: "backends" :: _ :: _ => if b = "" then none else some b
  | b :: "backends" :: _ :: _ => if b = "" then none else some b
  | _ => none

/-- `/frontends/([^/]+)/middlewares/([^/]+)$` — captures
(frontendId, middlewareId). -/
def middlewareKeyMatch (key : String) : Option (String × String) :=
  match (segs key).reverse with
  | m :: "middlewares" :: f :: "frontends" :: _ :: _ =>
    if m = "" ∨ f = "" then none else some (f, m)
  | _ => none

/-- `/frontends/([^/]+)(?:/frontend)?$` — captures the frontend id. -/
def frontendKeyMatch (key : String) : Option String :=
  match (segs key).reverse with
  | "frontend" :: f :: "frontends" :: _ :: _ => if f = "" then none else some f
  | f :: "frontends" :: _ :: _ => if f = "" then none else some f
  | _ => none

/-- `/hosts/([^/]+)(?:/host)?$` — captures the host name. -/
def hostKeyMatch (key : String) : Option String :=
  match (segs key).reverse with
  | "host" :: h :: "hosts" :: _ :: _ => if h = "" then none else some h
  | h :: "hosts" :: _ :: _ => if h = "" then none else some h
  | _ => none

/-- Leftmost scan for a `listeners` segment followed by a nonempty segment
(the unanchored pattern `/listeners/([^/]+)`); the scan runs over the
segments after the first one, each of which is preceded by a `/`. -/
def listenerScan : List String → Option String
  | "listeners" :: x :: rest =>
    if x = "" then listenerScan (x :: rest) else some x
  | _ :: rest => listenerScan rest
  | [] => none

/-- `/listeners/([^/]+)` — captures the listener id. -/
def listenerKeyMatch (key : String) : Option String :=
  match segs key with
  | [] => none
  | _ :: rest => listenerScan rest

/-- `mvccpb.Event_EventType` (`PUT` or `DELETE`). -/
inductive EventType where
  | put
  | delete
deriving DecidableEq

/-- One watch mutation (`etcd.Event`): operation kind and mutated key. -/
structure WEvent where
  type : EventType
  key : String
deriving DecidableEq

/-- The typed change records emitted to the consumer
(`engine.*Upserted` / `engine.*Deleted`). -/
inductive Change where
  | serverUpserted (backendId : String) (s : Server)
  | serverDeleted (backendId serverId : String)
  | backendUpserted (b : Backend)
  | backendDeleted (backendId : String)
  | middlewareUpserted (frontendId : String) (m : Middleware)
  | middlewareDeleted (frontendId middlewareId : String)
  | frontendUpserted (f : Frontend)
  | frontendDeleted (frontendId : String)
  | hostUpserted (h : Host)
  | hostDeleted (name : String)
  | listenerUpserted (l : Listener)
  | listenerDeleted (id : String)
deriving DecidableEq

/-- Whether a change is one of the `Deleted` variants (which carry only
identifying keys). -/
def Change.isDeleted : Change → Bool
  | .serverDeleted _ _ => true
  | .backendDeleted _ => true
  | .middlewareDeleted _ _ => true
  | .frontendDeleted _ => true
  | .hostDeleted _ => true
  | .listenerDeleted _ => true
  | _ => false

/-- Go `parseBackendServerChange`. -/
def parseBackendServerChange (n : Ng) (st : Store) (e : WEvent) :
    Except Err (Option Change) :=
  match serverKeyMatch e.key with
  | none => .ok none
  | some (b, s) =>
    match e.type with
    | .put =>
      match getServer n st b s with
      | .error err => .error err
      | .ok srv => .ok (some (.serverUpserted b srv))
    | .delete => .ok (some (.serverDeleted b s))

/-- Go `parseBackendChange`. -/
def parseBackendChange (n : Ng) (st : Store) (e : WEvent) :
    Except Err (Option Change) :=
  match backendKeyMatch e.key with
  | none => .ok none
  | some b =>
    match e.type with
    | .put =>
      match getBackend n st b with
      | .error err => .error err
      | .ok bk => .ok (some (.backendUpserted bk))
    | .delete => .ok (some (.backendDeleted b))

/-- Go `parseFrontendMiddlewareChange`. -/
def parseFrontendMiddlewareChange (n : Ng) (st : Store) (e : WEvent) :
    Except Err (Option Change) :=
  match middlewareKeyMatch e.key with
  | none => .ok none
  | some (f, m) =>
    match e.type with
    | .put =>
      match getMiddleware n st f m with
      | .error err => .error err
      | .ok mw => .ok (some (.middlewareUpserted f mw))
    | .delete => .ok (some (.middlewareDeleted f m))

/-- Go `parseFrontendChange`. -/
def parseFrontendChange (n : Ng) (st : Store) (e : WEvent) :
    Except Err (Option Change) :=
  match frontendKeyMatch e.key with
  | none => .ok none
  | some f =>
    match e.type with
    | .put =>
      match getFrontend n st f with
      | .error err => .error err
      | .ok fr => .ok (some (.frontendUpserted fr))
    | .delete => .ok (some (.frontendDeleted f))

/-- Go `parseHostChange`. -/
def parseHostChange (n : Ng) (st : Store) (e : WEvent) :
    Except Err (Option Change) :=
  match hostKeyMatch e.key with
  | none => .ok none
  | some h =>
    match e.type with
    | .put =>
      match getHost n st h with
      | .error err => .error err
      | .ok host => .ok (some (.hostUpserted host))
    | .delete => .ok (some (.hostDeleted h))

/-- Go `parseListenerChange`. -/
def parseListenerChange (n : Ng) (st : Store) (e : WEvent) :
    Except Err (Option Change) :=
  match listenerKeyMatch e.key with
  | none => .ok none
  | some l =>
    match e.type with
    | .put =>
      match getListener n st l with
      | .error err => .error err
      | .ok ls => .ok (some (.listenerUpserted ls))
    | .delete => .ok (some (.listenerDeleted l))

/-- The matcher loop of `parseChange`: the first matcher returning a non-nil
change or an error decides. -/
def runMatchers (n : Ng) (st : Store) (e : WEvent) :
    List (Ng → Store → WEvent → Except Err (Option Change)) →
    Except Err (Option Change)
  | [] => .ok none
  | m :: rest =>
    match m n st e with
    | .error err => .error err
    | .ok (some a) => .ok (some a)
    | .ok none => runMatchers n st e rest

/-- Go `parseChange`: the fixed matcher order of the source. -/
def parseChange (n : Ng) (st : Store) (e : WEvent) : Except Err (Option Change) :=
  runMatchers n st e
    [parseBackendServerChange, parseBackendChange, parseFrontendMiddlewareChange,
     parseFrontendChange, parseHostChange, parseListenerChange]

/-- Whether any of the six key patterns matches the key. -/
def matchesAny (key : String) : Bool :=
  (serverKeyMatch key).isSome || (backendKeyMatch key).isSome ||
  (middlewareKeyMatch key).isSome || (frontendKeyMatch key).isSome ||
  (hostKeyMatch key).isSome || (listenerKeyMatch key).isSome

/-- Modelled from the spec: dispatch trying the key patterns in the fixed
order server, backend, frontend-middleware, frontend, host, listener, the
first pattern that matches the key winning.  Stated from the spec's words to
be compared against the source's `parseChange`. -/
def specOrderedDispatch (n : Ng) (st : Store) (e : WEvent) :
    Except Err (Option Change) :=
  if (serverKeyMatch e.key).isSome then parseBackendServerChange n st e
  else if (backendKeyMatch e.key).isSome then parseBackendChange n st e
  else if (middlewareKeyMatch e.key).isSome then parseFrontendMiddlewareChange n st e
  else if (frontendKeyMatch e.key).isSome then parseFrontendChange n st e
  else if (hostKeyMatch e.key).isSome then parseHostChange n st e
  else if (listenerKeyMatch e.key).isSome then parseListenerChange n st e
  else .ok none

/-! ### Watch loop (`Subscribe`)

One watch response (`etcd.WatchResponse`) carries the `Canceled` flag, the
result of `response.Err()` and the batched events.  The consumer and the
cancellation channel are modelled by `deliver : Nat → Bool`: the `select`
racing `changes <- change` against `<-cancelC` at the k-th delivery attempt
is won by the consumer exactly when `deliver k` is true; a lost race returns
`nil` as in the source.  The function returns the changes delivered and the
final result of `Subscribe`. -/

structure WatchResponse where
  canceled : Bool
  err : Option Err
  events : List WEvent
deriving DecidableEq

/-- Inner event loop of `Subscribe`: classify each event; on a
classification error log and continue; on a change, deliver unless the
cancellation signal wins the race (third component true means the loop
returned because of cancellation). -/
def runEvents (n : Ng) (st : Store) (deliver : Nat → Bool) :
    List WEvent → Nat → List Change → Nat × List Change × Bool
  | [], cnt, acc => (cnt, acc, false)
  | e :: rest, cnt, acc =>
    match parseChange n st e with
    | .error _ => runEvents n st deliver rest cnt acc
    | .ok none => runEvents n st deliver rest cnt acc
    | .ok (some c) =>
      if deliver cnt then runEvents n st deliver rest (cnt + 1) (acc ++ [c])
      else (cnt + 1, acc, true)

/-- Outer loop of `Subscribe` over the stream of watch responses. -/
def subscribeAux (n : Ng) (st : Store) (deliver : Nat → Bool) :
    List WatchResponse → Nat → List Change → List Change × Except Err Unit
  | [], _, acc => (acc, .ok ())
  | r :: rest, cnt, acc =>
    if r.canceled then (acc, .ok ())
    else
      match r.err with
      | some e => (acc, .error e)
      | none =>
        match runEvents n st deliver r.events cnt acc with
        | (_, acc', true) => (acc', .ok ())
        | (cnt', acc', false) => subscribeAux n st deliver rest cnt' acc'

/-- Go `Subscribe`: process the watch stream, returning the delivered changes
and the blocking call's result. -/
def subscribe (n : Ng) (st : Store) (deliver : Nat → Bool)
    (stream : List WatchResponse) : List Change × Except Err Unit :=
  subscribeAux n st deliver stream 0 []

/-! ### Helper lemmas about the key-path model -/

theorem lastIndexOf?_of_not_mem {c : Char} {l : List Char} (h : c ∉ l) :
    lastIndexOf? c l = none := by
  induction l with
  | nil => rfl
  | cons x xs ih =>
    simp only [List.mem_cons, not_or] at h
    simp only [lastIndexOf?, ih h.2]
    rw [if_neg (fun hh => h.1 hh.symm)]

theorem lastIndexOf?_append_cons (xs : List Char) {c : Char} {ys : List Char}
    (h : c ∉ ys) : lastIndexOf? c (xs ++ c :: ys) = some xs.length := by
  induction xs with
  | nil => simp [lastIndexOf?, lastIndexOf?_of_not_mem h]
  | cons x xs ih => simp [lastIndexOf?, ih]

theorem suffix_of_no_sep {p : String} (h : '/' ∉ p.data) : suffix p = p := by
  simp [suffix, lastIndexOf?_of_not_mem h]

theorem parentPath_of_no_sep {p : String} (h : '/' ∉ p.data) : parentPath p = p := by
  simp [parentPath, lastIndexOf?_of_not_mem h]

theorem join_data (b s : String) : (b ++ "/" ++ s).data = b.data ++ '/' :: s.data := by
  simp [String.data_append]

theorem suffix_join (b s : String) (h : '/' ∉ s.data) : suffix (b ++ "/" ++ s) = s := by
  have hdrop : (b.data ++ '/' :: s.data).drop (b.data.length + 1) = s.data := by
    have h2 : b.data ++ '/' :: s.data = (b.data ++ ['/']) ++ s.data := by simp
    have h3 : (b.data ++ ['/']).length = b.data.length + 1 := by simp
    rw [h2, ← h3, List.drop_left]
  unfold suffix
  rw [join_data, lastIndexOf?_append_cons b.data h]
  show (⟨(b.data ++ '/' :: s.data).drop (b.data.length + 1)⟩ : String) = s
  rw [hdrop]

theorem parentPath_join (b s : String) (h : '/' ∉ s.data) :
    parentPath (b ++ "/" ++ s) = b := by
  unfold parentPath
  rw [join_data, lastIndexOf?_append_cons b.data h]
  show (⟨(b.data ++ '/' :: s.data).take b.data.length⟩ : String) = b
  rw [List.take_left]

theorem strStartsWith_self (s : String) : strStartsWith s s = true := by
  simp [strStartsWith, List.isPrefixOf_iff_prefix]

theorem strStartsWith_join (b s : String) : strStartsWith b (b ++ "/" ++ s) = true := by
  simp only [strStartsWith, List.isPrefixOf_iff_prefix, join_data]
  exact List.prefix_append b.data ('/' :: s.data)

/-! ### Claim theorems -/

/-- C8: the key-path operations are pure and mutually inverse: on a path with
no separator both `suffix` and the parent-path helper are the identity, and
for any base `b` and separator-free segment `s`, `suffix` and the parent-path
helper of `path`-joining `s` onto `b` recover `s` and `b` exactly. -/
theorem c8_path_ops_inverse :
    (∀ p : String, '/' ∉ p.data → suffix p = p ∧ parentPath p = p) ∧
    (∀ b s : String, '/' ∉ s.data →
      suffix (Ng.path ⟨b, false⟩ [s]) = s ∧ parentPath (Ng.path ⟨b, false⟩ [s]) = b) := by
  constructor
  · exact fun p h => ⟨suffix_of_no_sep h, parentPath_of_no_sep h⟩
  · intro b s h
    have hp : Ng.path ⟨b, false⟩ [s] = b ++ "/" ++ s := rfl
    rw [hp]
    exact ⟨suffix_join b s h, parentPath_join b s h⟩

/-- Witness for C8 at concrete paths. -/
theorem c8_witness :
    (suffix "frontends" = "frontends" ∧ parentPath "frontends" = "frontends") ∧
    (suffix (Ng.path ⟨"vulcand/sub", false⟩ ["f1"]) = "f1" ∧
      parentPath (Ng.path ⟨"vulcand/sub", false⟩ ["f1"]) = "vulcand/sub") :=
  ⟨c8_path_ops_inverse.1 "frontends" (by decide),
   c8_path_ops_inverse.2 "vulcand/sub" "f1" (by decide)⟩

/-- C1 counterexample: a listing whose only flaw is one malformed payload on
a record matched as a backend container makes `GetSnapshot` return the
deserialization error — no transport failure is involved, so the claim that
`GetSnapshot` errors only on transport/read failure is false. -/
theorem c1_counterexample :
    getSnapshot ⟨"vulcand", false⟩
      [("vulcand/backends", .garbage),
       ("vulcand/backends/backend/backend", .garbage)] = .error .decode := by
  decide

/-- C1 (amended): `GetSnapshot` propagates payload deserialization errors
instead of skipping the malformed entity: whenever the listing holds a record
whose last segment is `backends` next to a matched container record with an
undecodable payload, `GetSnapshot` returns the decode error and no snapshot. -/
theorem c1_getSnapshot_propagates_decode_error
    (r : String) (v : Val) (h1 : '/' ∉ r.data) (h2 : r ≠ "backend") :
    getSnapshot ⟨r, false⟩
      [(r ++ "/" ++ "backends", v),
       (r ++ "/" ++ "backends" ++ "/" ++ "backend" ++ "/" ++ "backend", .garbage)] =
      .error .decode := by
  have hsuf1 : suffix (r ++ "/" ++ "backends") = "backends" :=
    suffix_join r "backends" (by decide)
  have hpar1 : parentPath (r ++ "/" ++ "backends") = r :=
    parentPath_join r "backends" (by decide)
  have hsufr : suffix r = r := suffix_of_no_sep h1
  have hpar2 :
      parentPath (r ++ "/" ++ "backends" ++ "/" ++ "backend" ++ "/" ++ "backend") =
        r ++ "/" ++ "backends" ++ "/" ++ "backend" :=
    parentPath_join (r ++ "/" ++ "backends" ++ "/" ++ "backend") "backend" (by decide)
  have hsuf2 : suffix (r ++ "/" ++ "backends" ++ "/" ++ "backend") = "backend" :=
    suffix_join (r ++ "/" ++ "backends") "backend" (by decide)
  have hsw1 : strStartsWith (r ++ "/" ++ "backends") (r ++ "/" ++ "backends") = true :=
    strStartsWith_self _
  have hsw2 : strStartsWith (r ++ "/" ++ "backends")
      (r ++ "/" ++ "backends" ++ "/" ++ "backend" ++ "/" ++ "backend") = true := by
    simp only [strStartsWith, List.isPrefixOf_iff_prefix, String.data_append]
    refine ⟨"/".data ++ "backend".data ++ "/".data ++ "backend".data, by simp⟩
  simp [getSnapshot, getSnapshotLoop, hsuf1, hpar1, hsufr, h2, hsuf2, hpar2,
    filterBySuffix, hsw1, hsw2, parseBackends, parseBackendsFrom, BackendFromJSON]

/-- Witness for C1 at a concrete root. -/
theorem c1_witness :
    getSnapshot ⟨"vulcand", false⟩
      [("vulcand" ++ "/" ++ "backends", .backendV),
       ("vulcand" ++ "/" ++ "backends" ++ "/" ++ "backend" ++ "/" ++ "backend",
        .garbage)] = .error .decode :=
  c1_getSnapshot_propagates_decode_error "vulcand" .backendV (by decide) (by decide)

/-- C2: evaluating `GetSnapshot` at the claim's failing input — a sorted
listing with the frontend container `vulcand/frontends/f1/frontend` and two
well-formed middleware records — yields a snapshot with NO frontend specs at
all, because the container matcher of `parseFrontends` tests the id segment
(`f1`) against the literal `frontend`, and the child sub-listing is filtered
under the container key including the `/frontend` discriminator. -/
theorem c2_snapshot_drops_frontends :
    getSnapshot ⟨"vulcand", false⟩
      [("vulcand/frontends", .garbage),
       ("vulcand/frontends/f1/frontend", .frontendV "b1"),
       ("vulcand/frontends/f1/middlewares/m1", .middlewareV),
       ("vulcand/frontends/f1/middlewares/m2", .middlewareV)] =
      .ok ⟨[], [], [], []⟩ := by
  decide

/-- C3 counterexample: a watch response marked canceled by the store and
carrying a fatal error (the compaction case) makes `Subscribe` return `nil`
(`.ok ()`), not the claimed non-nil fatal error. -/
theorem c3_counterexample :
    subscribe ⟨"vulcand", false⟩ ⟨[], false⟩ (fun _ => true)
      [⟨true, some .transport, []⟩] = ([], .ok ()) := by
  decide

/-- C3 (amended): on a canceled subscription `Subscribe` stops at once and
reports `nil` (normal completion), whatever error the response carries and
whatever remains on the stream — so there is no internal retry; a non-nil
error is returned exactly for a response that carries an error without the
canceled flag. -/
theorem c3_subscribe_cancel_semantics :
    (∀ (n : Ng) (st : Store) (d : Nat → Bool) (e : Option Err) (evs : List WEvent)
        (rest : List WatchResponse),
        subscribe n st d (⟨true, e, evs⟩ :: rest) = ([], .ok ())) ∧
    (∀ (n : Ng) (st : Store) (d : Nat → Bool) (err : Err) (evs : List WEvent)
        (rest : List WatchResponse),
        subscribe n st d (⟨false, some err, evs⟩ :: rest) = ([], .error err)) := by
  exact ⟨fun _ _ _ _ _ _ => rfl, fun _ _ _ _ _ _ => rfl⟩

/-- C4: evaluating `DeleteBackend` at the claim's failing input — a store in
which frontend `f1` references backend `b1` — shows the delete SUCCEEDS and
removes the whole backend prefix: `backendUsedBy` relies on `GetFrontends`,
whose parse loop never matches a real container key and `break`s before
appending, so it always reports no referencing frontends. -/
theorem c4_delete_referenced_backend :
    deleteBackend ⟨"vulcand", false⟩
      ⟨[("vulcand/frontends/f1/frontend", .frontendV "b1"),
        ("vulcand/backends/b1/backend", .backendV),
        ("vulcand/backends/b1/servers/s1", .serverV)], false⟩ "b1" =
      (.ok (), ⟨[("vulcand/frontends/f1/frontend", .frontendV "b1")], false⟩) := by
  decide

/-- C6: `UpsertFrontend` requires the referenced backend to exist: on a
reachable store with no record at the referenced backend's key it returns the
backend lookup's not-found error and leaves the store untouched — the check
precedes any write. -/
theorem c6_upsertFrontend_requires_backend
    (n : Ng) (st : Store) (f : Frontend) (ttl : Nat)
    (hid : f.id ≠ "") (hfail : st.failing = false)
    (habs : st.lookup (n.path ["backends", f.backendId, "backend"]) = none) :
    upsertFrontend n st f ttl = (.error (.notFound "Key not found"), st) := by
  simp [upsertFrontend, hid, getBackend, getVal, hfail, habs]

/-- Witness for C6 on the empty store. -/
theorem c6_witness :
    upsertFrontend ⟨"vulcand", false⟩ ⟨[], false⟩ ⟨"f1", "b1"⟩ 0 =
      (.error (.notFound "Key not found"), ⟨[], false⟩) :=
  c6_upsertFrontend_requires_backend ⟨"vulcand", false⟩ ⟨[], false⟩ ⟨"f1", "b1"⟩ 0
    (by decide) rfl rfl

/-- C9 counterexample: `UpsertFrontend` is an upsert called with an empty
backend id, yet it does not return an `InvalidFormatError`: on an empty store
it performs the backend lookup and returns its not-found error, and on a
store that happens to hold a record at the degenerate key
`<root>/backends//backend` the lookup is read and the upsert proceeds to a
successful write — so the store is both read and written. -/
theorem c9_counterexample :
    upsertFrontend ⟨"vulcand", false⟩ ⟨[], false⟩ ⟨"f1", ""⟩ 0 =
      (.error (.notFound "Key not found"), ⟨[], false⟩) ∧
    (upsertFrontend ⟨"vulcand", false⟩
        ⟨[("vulcand/backends//backend", .backendV)], false⟩ ⟨"f1", ""⟩ 0).1 =
      .ok () := by
  decide

/-- C9 (amended): every upsert and delete rejects an empty value of the
identifiers it validates — host name; listener id; frontend id; backend id;
frontend and middleware ids; backend and server ids — with an
`InvalidFormatError`, before any read or write: the result is the same for
every store and the store is returned unchanged.  (`UpsertFrontend` does not
validate the referenced backend id; see the counterexample.) -/
theorem c9_empty_id_guards :
    (∀ (n : Ng) (st : Store) (kp : Bool), upsertHost n st "" kp =
      (.error (.invalidFormat "hostname can not be empty"), st)) ∧
    (∀ (n : Ng) (st : Store), deleteHost n st "" =
      (.error (.invalidFormat "hostname can not be empty"), st)) ∧
    (∀ (n : Ng) (st : Store), upsertListener n st "" =
      (.error (.invalidFormat "listener id can not be empty"), st)) ∧
    (∀ (n : Ng) (st : Store), deleteListener n st "" =
      (.error (.invalidFormat "listener id can not be empty"), st)) ∧
    (∀ (n : Ng) (st : Store) (bId : String) (ttl : Nat),
      upsertFrontend n st ⟨"", bId⟩ ttl =
        (.error (.invalidFormat "frontend id can not be empty"), st)) ∧
    (∀ (n : Ng) (st : Store), deleteFrontend n st "" =
      (.error (.invalidFormat "frontend id can not be empty"), st)) ∧
    (∀ (n : Ng) (st : Store), upsertBackend n st "" =
      (.error (.invalidFormat "backend id can not be empty"), st)) ∧
    (∀ (n : Ng) (st : Store), deleteBackend n st "" =
      (.error (.invalidFormat "backend id can not be empty"), st)) ∧
    (∀ (n : Ng) (st : Store) (fId mId : String), fId = "" ∨ mId = "" →
      upsertMiddleware n st fId mId =
        (.error (.invalidFormat "frontend id and middleware id can not be empty"), st)) ∧
    (∀ (n : Ng) (st : Store) (fId mId : String), fId = "" ∨ mId = "" →
      deleteMiddleware n st fId mId =
        (.error (.invalidFormat "frontend id and middleware id can not be empty"), st)) ∧
    (∀ (n : Ng) (st : Store) (bId sId : String), sId = "" ∨ bId = "" →
      upsertServer n st bId sId =
        (.error (.invalidFormat "backend id and server id can not be empty"), st)) ∧
    (∀ (n : Ng) (st : Store) (bId sId : String), sId = "" ∨ bId = "" →
      deleteServer n st bId sId =
        (.error (.invalidFormat "backend id and server id can not be empty"), st)) := by
  refine ⟨fun n st kp => rfl, fun n st => rfl, fun n st => rfl, fun n st => rfl,
    fun n st bId ttl => rfl, fun n st => rfl, fun n st => rfl, fun n st => rfl,
    ?_, ?_, ?_, ?_⟩
  · intro n st fId mId h
    unfold upsertMiddleware
    rw [if_pos h]
  · intro n st fId mId h
    unfold deleteMiddleware
    rw [if_pos h]
  · intro n st bId sId h
    unfold upsertServer
    rw [if_pos h]
  · intro n st bId sId h
    unfold deleteServer
    rw [if_pos h]

/-- Witness for C9 instantiating every guard on a nonempty concrete store. -/
theorem c9_witness :
    upsertHost ⟨"v", true⟩ ⟨[("k", .garbage)], false⟩ "" true =
      (.error (.invalidFormat "hostname can not be empty"), ⟨[("k", .garbage)], false⟩) ∧
    deleteHost ⟨"v", true⟩ ⟨[("k", .garbage)], false⟩ "" =
      (.error (.invalidFormat "hostname can not be empty"), ⟨[("k", .garbage)], false⟩) ∧
    upsertListener ⟨"v", true⟩ ⟨[("k", .garbage)], false⟩ "" =
      (.error (.invalidFormat "listener id can not be empty"), ⟨[("k", .garbage)], false⟩) ∧
    deleteListener ⟨"v", true⟩ ⟨[("k", .garbage)], false⟩ "" =
      (.error (.invalidFormat "listener id can not be empty"), ⟨[("k", .garbage)], false⟩) ∧
    upsertFrontend ⟨"v", true⟩ ⟨[("k", .garbage)], false⟩ ⟨"", "b1"⟩ 7 =
      (.error (.invalidFormat "frontend id can not be empty"), ⟨[("k", .garbage)], false⟩) ∧
    deleteFrontend ⟨"v", true⟩ ⟨[("k", .garbage)], false⟩ "" =
      (.error (.invalidFormat "frontend id can not be empty"), ⟨[("k", .garbage)], false⟩) ∧
    upsertBackend ⟨"v", true⟩ ⟨[("k", .garbage)], false⟩ "" =
      (.error (.invalidFormat "backend id can not be empty"), ⟨[("k", .garbage)], false⟩) ∧
    deleteBackend ⟨"v", true⟩ ⟨[("k", .garbage)], false⟩ "" =
      (.error (.invalidFormat "backend id can not be empty"), ⟨[("k", .garbage)], false⟩) ∧
    upsertMiddleware ⟨"v", true⟩ ⟨[("k", .garbage)], false⟩ "f1" "" =
      (.error (.invalidFormat "frontend id and middleware id can not be empty"),
        ⟨[("k", .garbage)], false⟩) ∧
    deleteMiddleware ⟨"v", true⟩ ⟨[("k", .garbage)], false⟩ "" "m1" =
      (.error (.invalidFormat "frontend id and middleware id can not be empty"),
        ⟨[("k", .garbage)], false⟩) ∧
    upsertServer ⟨"v", true⟩ ⟨[("k", .garbage)], false⟩ "b1" "" =
      (.error (.invalidFormat "backend id and server id can not be empty"),
        ⟨[("k", .garbage)], false⟩) ∧
    deleteServer ⟨"v", true⟩ ⟨[("k", .garbage)], false⟩ "" "s1" =
      (.error (.invalidFormat "backend id and server id can not be empty"),
        ⟨[("k", .garbage)], false⟩) := by
  obtain ⟨h1, h2, h3, h4, h5, h6, h7, h8, h9, h10, h11, h12⟩ := c9_empty_id_guards
  exact ⟨h1 _ _ true, h2 _ _, h3 _ _, h4 _ _, h5 _ _ "b1" 7, h6 _ _, h7 _ _, h8 _ _,
    h9 _ _ "f1" "" (Or.inr rfl), h10 _ _ "" "m1" (Or.inl rfl),
    h11 _ _ "b1" "" (Or.inl rfl), h12 _ _ "" "s1" (Or.inr rfl)⟩

/-- The bulk-getter loop keeps, in order, exactly the entries on which `f`
succeeds. -/
theorem collectLoop_eq {α β : Type} (f : α → Except Err β) :
    ∀ (l : List α) (acc : List β),
      collectLoop f l acc = acc ++ l.filterMap (fun x => (f x).toOption) := by
  intro l
  induction l with
  | nil => intro acc; simp [collectLoop]
  | cons x xs ih =>
    intro acc
    rcases hx : f x with e | b <;>
      simp [collectLoop, hx, ih, Except.toOption, List.append_assoc]

/-- C10: the bulk list getters isolate per-entity failures: whenever the
underlying prefix read fails they return exactly that transport error, and
whenever it succeeds they return `.ok` with, in order, exactly those entries
whose point read and deserialization succeed — a failing entry is skipped and
the remaining well-formed entities are still returned. -/
theorem c10_bulk_getters_isolate_failures :
    (∀ (n : Ng) (st : Store), st.failing = true →
      getHosts n st = .error .transport ∧ getListeners n st = .error .transport ∧
      (∀ fId, getMiddlewares n st fId = .error .transport) ∧
      (∀ bId, getServers n st bId = .error .transport)) ∧
    (∀ (n : Ng) (st : Store) (keys : List String),
      getKeysUnderParent st [n.etcdKey, "hosts"] = .ok keys →
      getHosts n st =
        .ok (keys.filterMap (fun k => (getHost n st (suffix k)).toOption))) ∧
    (∀ (n : Ng) (st : Store) (prs : List KV),
      getVals st [n.etcdKey, "listeners"] = .ok prs →
      getListeners n st =
        .ok (prs.filterMap (fun p => (getListener n st (suffix p.1)).toOption))) ∧
    (∀ (n : Ng) (st : Store) (fId : String) (prs : List KV),
      getVals st [n.etcdKey, "frontends", fId, "middlewares"] = .ok prs →
      getMiddlewares n st fId =
        .ok (prs.filterMap (fun p => (getMiddleware n st fId (suffix p.1)).toOption))) ∧
    (∀ (n : Ng) (st : Store) (bId : String) (prs : List KV),
      getVals st [n.etcdKey, "backends", bId, "servers"] = .ok prs →
      getServers n st bId =
        .ok (prs.filterMap (fun p => (getServer n st bId (suffix p.1)).toOption))) := by
  refine ⟨?_, ?_, ?_, ?_, ?_⟩
  · intro n st h
    refine ⟨?_, ?_, fun fId => ?_, fun bId => ?_⟩ <;>
      simp [getHosts, getListeners, getMiddlewares, getServers,
        getKeysUnderParent, getVals, h]
  · intro n st keys h
    simp [getHosts, h, collectLoop_eq]
  · intro n st prs h
    simp [getListeners, h, collectLoop_eq]
  · intro n st fId prs h
    simp [getMiddlewares, h, collectLoop_eq]
  · intro n st bId prs h
    simp [getServers, h, collectLoop_eq]

/-- Witness for C10: a failing store errors, and on a reachable store with
one well-formed and one malformed listener the malformed one is skipped and
the well-formed one returned. -/
theorem c10_witness :
    getHosts ⟨"vulcand", false⟩ ⟨[], true⟩ = .error .transport ∧
    getListeners ⟨"vulcand", false⟩
      ⟨[("vulcand/listeners/l1", .listenerV), ("vulcand/listeners/l2", .garbage)],
       false⟩ = .ok [⟨"l1"⟩] := by
  constructor
  · exact (c10_bulk_getters_isolate_failures.1 ⟨"vulcand", false⟩ ⟨[], true⟩ rfl).1
  · exact (c10_bulk_getters_isolate_failures.2.2.1 ⟨"vulcand", false⟩
      ⟨[("vulcand/listeners/l1", .listenerV), ("vulcand/listeners/l2", .garbage)], false⟩
      [("vulcand/listeners/l1", .listenerV), ("vulcand/listeners/l2", .garbage)]
      (by decide)).trans (by decide)

/-- Dropping an event on which classification errors does not change the
inner event loop: the error is logged and the loop continues. -/
theorem runEvents_skip_error (n : Ng) (st : Store) (d : Nat → Bool) {e : WEvent}
    {err : Err} (he : parseChange n st e = .error err) :
    ∀ (evs1 evs2 : List WEvent) (cnt : Nat) (acc : List Change),
      runEvents n st d (evs1 ++ e :: evs2) cnt acc =
        runEvents n st d (evs1 ++ evs2) cnt acc := by
  intro evs1
  induction evs1 with
  | nil =>
    intro evs2 cnt acc
    simp [runEvents, he]
  | cons x xs ih =>
    intro evs2 cnt acc
    simp only [List.cons_append, runEvents]
    rcases hx : parseChange n st x with e2 | o
    · exact ih evs2 cnt acc
    · rcases o with _ | c
      · exact ih evs2 cnt acc
      · rcases hd : d cnt
        · simp [hd]
        · simp only [hd, if_true]
          exact ih evs2 (cnt + 1) (acc ++ [c])

/-- C7: a mutation whose classification returns an error is skipped and the
watch loop goes on with the following mutations of the subscription: the run
of `Subscribe` is identical to the run on the stream with that single
mutation removed — in particular a classification error never becomes the
return value of `Subscribe`. -/
theorem c7_subscribe_skips_classification_errors
    (n : Ng) (st : Store) (d : Nat → Bool) (err : Err) (e : WEvent)
    (evs1 evs2 : List WEvent) (rest : List WatchResponse)
    (he : parseChange n st e = .error err) :
    subscribe n st d (⟨false, none, evs1 ++ e :: evs2⟩ :: rest) =
      subscribe n st d (⟨false, none, evs1 ++ evs2⟩ :: rest) := by
  simp only [subscribe, subscribeAux]
  rw [runEvents_skip_error n st d he evs1 evs2 0 []]

/-- Witness for C7: a Put on a listener key absent from the store classifies
with an error; the subscription run equals the run without that mutation. -/
theorem c7_witness :
    subscribe ⟨"vulcand", false⟩ ⟨[], false⟩ (fun _ => true)
      [⟨false, none,
        [⟨.delete, "vulcand/backends/b1/servers/s1"⟩, ⟨.put, "vulcand/listeners/l1"⟩]⟩] =
    subscribe ⟨"vulcand", false⟩ ⟨[], false⟩ (fun _ => true)
      [⟨false, none, [⟨.delete, "vulcand/backends/b1/servers/s1"⟩]⟩] :=
  c7_subscribe_skips_classification_errors ⟨"vulcand", false⟩ ⟨[], false⟩
    (fun _ => true) (.notFound "Key not found") ⟨.put, "vulcand/listeners/l1"⟩
    [⟨.delete, "vulcand/backends/b1/servers/s1"⟩] [] [] (by decide)

/-! ### Helper lemmas about the six matchers -/

theorem pbsc_none (n : Ng) (st : Store) (t : EventType) (k : String)
    (h : serverKeyMatch k = none) : parseBackendServerChange n st ⟨t, k⟩ = .ok none := by
  simp [parseBackendServerChange, h]

theorem pbc_none (n : Ng) (st : Store) (t : EventType) (k : String)
    (h : backendKeyMatch k = none) : parseBackendChange n st ⟨t, k⟩ = .ok none := by
  simp [parseBackendChange, h]

theorem pfmc_none (n : Ng) (st : Store) (t : EventType) (k : String)
    (h : middlewareKeyMatch k = none) :
    parseFrontendMiddlewareChange n st ⟨t, k⟩ = .ok none := by
  simp [parseFrontendMiddlewareChange, h]

theorem pfc_none (n : Ng) (st : Store) (t : EventType) (k : String)
    (h : frontendKeyMatch k = none) : parseFrontendChange n st ⟨t, k⟩ = .ok none := by
  simp [parseFrontendChange, h]

theorem phc_none (n : Ng) (st : Store) (t : EventType) (k : String)
    (h : hostKeyMatch k = none) : parseHostChange n st ⟨t, k⟩ = .ok none := by
  simp [parseHostChange, h]

theorem plc_none (n : Ng) (st : Store) (t : EventType) (k : String)
    (h : listenerKeyMatch k = none) : parseListenerChange n st ⟨t, k⟩ = .ok none := by
  simp [parseListenerChange, h]

theorem pbsc_store (n : Ng) (st st' : Store) (k : String) :
    parseBackendServerChange n st ⟨.delete, k⟩ =
      parseBackendServerChange n st' ⟨.delete, k⟩ := by
  cases hk : serverKeyMatch k with
  | none => simp [parseBackendServerChange, hk]
  | some p => obtain ⟨b, s⟩ := p; simp [parseBackendServerChange, hk]

theorem pbc_store (n : Ng) (st st' : Store) (k : String) :
    parseBackendChange n st ⟨.delete, k⟩ = parseBackendChange n st' ⟨.delete, k⟩ := by
  cases hk : backendKeyMatch k with
  | none => simp [parseBackendChange, hk]
  | some b => simp [parseBackendChange, hk]

theorem pfmc_store (n : Ng) (st st' : Store) (k : String) :
    parseFrontendMiddlewareChange n st ⟨.delete, k⟩ =
      parseFrontendMiddlewareChange n st' ⟨.delete, k⟩ := by
  cases hk : middlewareKeyMatch k with
  | none => simp [parseFrontendMiddlewareChange, hk]
  | some p => obtain ⟨f, m⟩ := p; simp [parseFrontendMiddlewareChange, hk]

theorem pfc_store (n : Ng) (st st' : Store) (k : String) :
    parseFrontendChange n st ⟨.delete, k⟩ = parseFrontendChange n st' ⟨.delete, k⟩ := by
  cases hk : frontendKeyMatch k with
  | none => simp [parseFrontendChange, hk]
  | some f => simp [parseFrontendChange, hk]

theorem phc_store (n : Ng) (st st' : Store) (k : String) :
    parseHostChange n st ⟨.delete, k⟩ = parseHostChange n st' ⟨.delete, k⟩ := by
  cases hk : hostKeyMatch k with
  | none => simp [parseHostChange, hk]
  | some h => simp [parseHostChange, hk]

theorem plc_store (n : Ng) (st st' : Store) (k : String) :
    parseListenerChange n st ⟨.delete, k⟩ = parseListenerChange n st' ⟨.delete, k⟩ := by
  cases hk : listenerKeyMatch k with
  | none => simp [parseListenerChange, hk]
  | some l => simp [parseListenerChange, hk]

theorem pbsc_delete_some (n : Ng) (st : Store) {k : String} {p : String × String}
    (h : serverKeyMatch k = some p) :
    parseBackendServerChange n st ⟨.delete, k⟩ =
      .ok (some (.serverDeleted p.1 p.2)) := by
  obtain ⟨b, s⟩ := p
  simp [parseBackendServerChange, h]

theorem pbc_delete_some (n : Ng) (st : Store) {k b : String}
    (h : backendKeyMatch k = some b) :
    parseBackendChange n st ⟨.delete, k⟩ = .ok (some (.backendDeleted b)) := by
  simp [parseBackendChange, h]

theorem pfmc_delete_some (n : Ng) (st : Store) {k : String} {p : String × String}
    (h : middlewareKeyMatch k = some p) :
    parseFrontendMiddlewareChange n st ⟨.delete, k⟩ =
      .ok (some (.middlewareDeleted p.1 p.2)) := by
  obtain ⟨f, m⟩ := p
  simp [parseFrontendMiddlewareChange, h]

theorem pfc_delete_some (n : Ng) (st : Store) {k f : String}
    (h : frontendKeyMatch k = some f) :
    parseFrontendChange n st ⟨.delete, k⟩ = .ok (some (.frontendDeleted f)) := by
  simp [parseFrontendChange, h]

theorem phc_delete_some (n : Ng) (st : Store) {k h : String}
    (hm : hostKeyMatch k = some h) :
    parseHostChange n st ⟨.delete, k⟩ = .ok (some (.hostDeleted h)) := by
  simp [parseHostChange, hm]

theorem plc_delete_some (n : Ng) (st : Store) {k l : String}
    (h : listenerKeyMatch k = some l) :
    parseListenerChange n st ⟨.delete, k⟩ = .ok (some (.listenerDeleted l)) := by
  simp [parseListenerChange, h]

theorem pbsc_ne_none (n : Ng) (st : Store) (t : EventType) {k : String}
    {p : String × String} (h : serverKeyMatch k = some p) :
    parseBackendServerChange n st ⟨t, k⟩ ≠ .ok none := by
  obtain ⟨b, s⟩ := p
  cases t
  · simp only [parseBackendServerChange, h]
    rcases getServer n st b s <;> simp
  · simp [parseBackendServerChange, h]

theorem pbc_ne_none (n : Ng) (st : Store) (t : EventType) {k b : String}
    (h : backendKeyMatch k = some b) :
    parseBackendChange n st ⟨t, k⟩ ≠ .ok none := by
  cases t
  · simp only [parseBackendChange, h]
    rcases getBackend n st b <;> simp
  · simp [parseBackendChange, h]

theorem pfmc_ne_none (n : Ng) (st : Store) (t : EventType) {k : String}
    {p : String × String} (h : middlewareKeyMatch k = some p) :
    parseFrontendMiddlewareChange n st ⟨t, k⟩ ≠ .ok none := by
  obtain ⟨f, m⟩ := p
  cases t
  · simp only [parseFrontendMiddlewareChange, h]
    rcases getMiddleware n st f m <;> simp
  · simp [parseFrontendMiddlewareChange, h]

theorem pfc_ne_none (n : Ng) (st : Store) (t : EventType) {k f : String}
    (h : frontendKeyMatch k = some f) :
    parseFrontendChange n st ⟨t, k⟩ ≠ .ok none := by
  cases t
  · simp only [parseFrontendChange, h]
    rcases getFrontend n st f <;> simp
  · simp [parseFrontendChange, h]

theorem phc_ne_none (n : Ng) (st : Store) (t : EventType) {k h : String}
    (hm : hostKeyMatch k = some h) :
    parseHostChange n st ⟨t, k⟩ ≠ .ok none := by
  cases t
  · simp only [parseHostChange, hm]
    rcases getHost n st h <;> simp
  · simp [parseHostChange, hm]

theorem plc_ne_none (n : Ng) (st : Store) (t : EventType) {k l : String}
    (h : listenerKeyMatch k = some l) :
    parseListenerChange n st ⟨t, k⟩ ≠ .ok none := by
  cases t
  · simp only [parseListenerChange, h]
    rcases getListener n st l <;> simp
  · simp [parseListenerChange, h]

/-- C5: the change classifier (i) performs no point read on a `Delete`
mutation — the result is the same on every store; (ii) on a `Delete` whose
key matches one of the entity patterns it yields a `Deleted` event carrying
only identifying keys; (iii) on a key no pattern matches it yields `nil` with
no error; and (iv) it equals the dispatch that tries the patterns in the
fixed order server, backend, frontend-middleware, frontend, host, listener
with the first match winning. -/
theorem c5_parseChange_spec :
    (∀ (n : Ng) (st st' : Store) (e : WEvent), e.type = .delete →
      parseChange n st e = parseChange n st' e) ∧
    (∀ (n : Ng) (st : Store) (k : String), matchesAny k = true →
      ∃ c : Change, parseChange n st ⟨.delete, k⟩ = .ok (some c) ∧
        c.isDeleted = true) ∧
    (∀ (n : Ng) (st : Store) (t : EventType) (k : String), matchesAny k = false →
      parseChange n st ⟨t, k⟩ = .ok none) ∧
    (∀ (n : Ng) (st : Store) (e : WEvent),
      parseChange n st e = specOrderedDispatch n st e) := by
  refine ⟨?_, ?_, ?_, ?_⟩
  · intro n st st' e h
    obtain ⟨t, k⟩ := e
    have ht : t = .delete := h
    subst ht
    simp only [parseChange, runMatchers, pbsc_store n st st' k, pbc_store n st st' k,
      pfmc_store n st st' k, pfc_store n st st' k, phc_store n st st' k,
      plc_store n st st' k]
  · intro n st k h
    rcases k1 : serverKeyMatch k with _ | p1
    case some =>
      exact ⟨.serverDeleted p1.1 p1.2,
        by simp [parseChange, runMatchers, pbsc_delete_some n st k1], rfl⟩
    rcases k2 : backendKeyMatch k with _ | b2
    case some =>
      exact ⟨.backendDeleted b2,
        by simp [parseChange, runMatchers, pbsc_none n st .delete k k1,
          pbc_delete_some n st k2], rfl⟩
    rcases k3 : middlewareKeyMatch k with _ | p3
    case some =>
      exact ⟨.middlewareDeleted p3.1 p3.2,
        by simp [parseChange, runMatchers, pbsc_none n st .delete k k1,
          pbc_none n st .delete k k2, pfmc_delete_some n st k3], rfl⟩
    rcases k4 : frontendKeyMatch k with _ | f4
    case some =>
      exact ⟨.frontendDeleted f4,
        by simp [parseChange, runMatchers, pbsc_none n st .delete k k1,
          pbc_none n st .delete k k2, pfmc_none n st .delete k k3,
          pfc_delete_some n st k4], rfl⟩
    rcases k5 : hostKeyMatch k with _ | h5
    case some =>
      exact ⟨.hostDeleted h5,
        by simp [parseChange, runMatchers, pbsc_none n st .delete k k1,
          pbc_none n st .delete k k2, pfmc_none n st .delete k k3,
          pfc_none n st .delete k k4, phc_delete_some n st k5], rfl⟩
    rcases k6 : listenerKeyMatch k with _ | l6
    case some =>
      exact ⟨.listenerDeleted l6,
        by simp [parseChange, runMatchers, pbsc_none n st .delete k k1,
          pbc_none n st .delete k k2, pfmc_none n st .delete k k3,
          pfc_none n st .delete k k4, phc_none n st .delete k k5,
          plc_delete_some n st k6], rfl⟩
    simp [matchesAny, k1, k2, k3, k4, k5, k6] at h
  · intro n st t k h
    rcases k1 : serverKeyMatch k with _ | p1
    case some => simp [matchesAny, k1] at h
    rcases k2 : backendKeyMatch k with _ | b2
    case some => simp [matchesAny, k1, k2] at h
    rcases k3 : middlewareKeyMatch k with _ | p3
    case some => simp [matchesAny, k1, k2, k3] at h
    rcases k4 : frontendKeyMatch k with _ | f4
    case some => simp [matchesAny, k1, k2, k3, k4] at h
    rcases k5 : hostKeyMatch k with _ | h5
    case some => simp [matchesAny, k1, k2, k3, k4, k5] at h
    rcases k6 : listenerKeyMatch k with _ | l6
    case some => simp [matchesAny, k1, k2, k3, k4, k5, k6] at h
    simp [parseChange, runMatchers, pbsc_none n st t k k1, pbc_none n st t k k2,
      pfmc_none n st t k k3, pfc_none n st t k k4, phc_none n st t k k5,
      plc_none n st t k k6]
  · intro n st e
    obtain ⟨t, k⟩ := e
    rcases k1 : serverKeyMatch k with _ | p1
    case some =>
      rcases r : parseBackendServerChange n st ⟨t, k⟩ with er | o
      · simp [parseChange, runMatchers, r, specOrderedDispatch, k1]
      · rcases o with _ | a
        · exact absurd r (pbsc_ne_none n st t k1)
        · simp [parseChange, runMatchers, r, specOrderedDispatch, k1]
    rcases k2 : backendKeyMatch k with _ | b2
    case some =>
      rcases r : parseBackendChange n st ⟨t, k⟩ with er | o
      · simp [parseChange, runMatchers, pbsc_none n st t k k1, r,
          specOrderedDispatch, k1, k2]
      · rcases o with _ | a
        · exact absurd r (pbc_ne_none n st t k2)
        · simp [parseChange, runMatchers, pbsc_none n st t k k1, r,
            specOrderedDispatch, k1, k2]
    rcases k3 : middlewareKeyMatch k with _ | p3
    case some =>
      rcases r : parseFrontendMiddlewareChange n st ⟨t, k⟩ with er | o
      · simp [parseChange, runMatchers, pbsc_none n st t k k1,
          pbc_none n st t k k2, r, specOrderedDispatch, k1, k2, k3]
      · rcases o with _ | a
        · exact absurd r (pfmc_ne_none n st t k3)
        · simp [parseChange, runMatchers, pbsc_none n st t k k1,
            pbc_none n st t k k2, r, specOrderedDispatch, k1, k2, k3]
    rcases k4 : frontendKeyMatch k with _ | f4
    case some =>
      rcases r : parseFrontendChange n st ⟨t, k⟩ with er | o
      · simp [parseChange, runMatchers, pbsc_none n st t k k1,
          pbc_none n st t k k2, pfmc_none n st t k k3, r,
          specOrderedDispatch, k1, k2, k3, k4]
      · rcases o with _ | a
        · exact absurd r (pfc_ne_none n st t k4)
        · simp [parseChange, runMatchers, pbsc_none n st t k k1,
            pbc_none n st t k k2, pfmc_none n st t k k3, r,
            specOrderedDispatch, k1, k2, k3, k4]
    rcases k5 : hostKeyMatch k with _ | h5
    case some =>
      rcases r : parseHostChange n st ⟨t, k⟩ with er | o
      · simp [parseChange, runMatchers, pbsc_none n st t k k1,
          pbc_none n st t k k2, pfmc_none n st t k k3, pfc_none n st t k k4, r,
          specOrderedDispatch, k1, k2, k3, k4, k5]
      · rcases o with _ | a
        · exact absurd r (phc_ne_none n st t k5)
        · simp [parseChange, runMatchers, pbsc_none n st t k k1,
            pbc_none n st t k k2, pfmc_none n st t k k3, pfc_none n st t k k4, r,
            specOrderedDispatch, k1, k2, k3, k4, k5]
    rcases k6 : listenerKeyMatch k with _ | l6
    case some =>
      rcases r : parseListenerChange n st ⟨t, k⟩ with er | o
      · simp [parseChange, runMatchers, pbsc_none n st t k k1,
          pbc_none n st t k k2, pfmc_none n st t k k3, pfc_none n st t k k4,
          phc_none n st t k k5, r, specOrderedDispatch, k1, k2, k3, k4, k5, k6]
      · rcases o with _ | a
        · exact absurd r (plc_ne_none n st t k6)
        · simp [parseChange, runMatchers, pbsc_none n st t k k1,
            pbc_none n st t k k2, pfmc_none n st t k k3, pfc_none n st t k k4,
            phc_none n st t k k5, r, specOrderedDispatch, k1, k2, k3, k4, k5, k6]
    simp [parseChange, runMatchers, pbsc_none n st t k k1, pbc_none n st t k k2,
      pfmc_none n st t k k3, pfc_none n st t k k4, phc_none n st t k k5,
      plc_none n st t k k6, specOrderedDispatch, k1, k2, k3, k4, k5, k6]

/-- Witness for C5 at concrete keys: a server delete is classified without
reading the store, and a key matching no pattern classifies as nil. -/
theorem c5_witness :
    parseChange ⟨"vulcand", false⟩ ⟨[("x", .garbage)], false⟩
      ⟨.delete, "vulcand/backends/b1/servers/s1"⟩ =
      parseChange ⟨"vulcand", false⟩ ⟨[], false⟩
        ⟨.delete, "vulcand/backends/b1/servers/s1"⟩ ∧
    parseChange ⟨"vulcand", false⟩ ⟨[], false⟩ ⟨.put, "vulcand/frontends"⟩ =
      .ok none :=
  ⟨c5_parseChange_spec.1 ⟨"vulcand", false⟩ ⟨[("x", .garbage)], false⟩ ⟨[], false⟩
      ⟨.delete, "vulcand/backends/b1/servers/s1"⟩ rfl,
   c5_parseChange_spec.2.2.1 ⟨"vulcand", false⟩ ⟨[], false⟩ .put "vulcand/frontends"
      (by decide)⟩

end VulcandEtcd
